import Mathlib

/-!
Verification of the `sql` type system of go-mysql-server (`sql/type.go`).

The file shallowly embeds the package: the Go `interface{}` values that can
reach `Check` / `Convert` / `Compare` / `SQL` are modelled by the closed sum
`Value`; every conversion, check and comparison function of the source is
translated to a total Lean function of the same name.  A Go function that can
panic (a type assertion, `MustConvert`, a method call on a nil interface)
is modelled with an `Option` result where `none` marks the panic.

Modelling conventions:
* Go `int` and `uint` are the 64-bit platform variants (the platforms this
  repository targets); a narrowing conversion such as `int32(i)` is the
  two's-complement truncation `wrap32`.
* `float32` values are modelled by `F32`: NaN, the two infinities, or a
  finite value represented as a rational.  The source performs no float
  arithmetic — only `<` / `>` comparisons and pass-through — and `F32.lt`
  is the IEEE-754 comparison on that abstraction (NaN unordered).
* Go strings are Lean strings; where the source compares strings bytewise
  (`strings.Compare`), we compare their UTF-8 byte sequences (`stringBytes`),
  which is exactly what Go does.
* `time.Time` is modelled by `GoTime`: seconds since the Unix epoch plus a
  nanosecond offset, the representation `time.Unix`, `Before`, `After` and
  `Format` actually operate on.  `time.Parse` of the fixed layout
  `2006-01-02 15:04:05.000000` and `Format` of `2006-01-02 15:04:05` are
  translated including Go's field-range validation, using the standard
  civil-from-days / days-from-civil calendar conversions.
-/

/-- Abstraction of a Go `float32` for the operations the source performs on
one: pass-through and IEEE comparison.  `fin q` is a finite float of numeric
value `q`; positive and negative zero are both `fin 0` (they compare equal). -/
inductive F32 where
  | nan
  | neginf
  | posinf
  | fin (q : ℚ)
deriving DecidableEq

/-- IEEE-754 `<` on `F32`: NaN is unordered with everything. -/
def F32.lt : F32 → F32 → Bool
  | .nan, _ => false
  | _, .nan => false
  | .neginf, .neginf => false
  | .neginf, _ => true
  | _, .neginf => false
  | .posinf, _ => false
  | .fin _, .posinf => true
  | .fin a, .fin b => decide (a < b)

/-- Go `time.Time` (wall clock, UTC): seconds since the Unix epoch and a
nanosecond offset in `[0, 10^9)`. -/
structure GoTime where
  sec : Int
  nsec : Nat
deriving DecidableEq

/-- `time.Unix(sec, 0)`. -/
def timeUnix (sec : Int) : GoTime := { sec := sec, nsec := 0 }

/-- `t.Before(u)`: `t.sec < u.sec || t.sec == u.sec && t.nsec < u.nsec`. -/
def goTimeBefore (t u : GoTime) : Bool :=
  decide (t.sec < u.sec) || (decide (t.sec = u.sec) && decide (t.nsec < u.nsec))

/-- `t.After(u)`: `t.sec > u.sec || t.sec == u.sec && t.nsec > u.nsec`. -/
def goTimeAfter (t u : GoTime) : Bool :=
  decide (u.sec < t.sec) || (decide (t.sec = u.sec) && decide (u.nsec < t.nsec))

/-- The closed sum of Go dynamic values that can flow into this package.
Payloads of the fixed-width constructors are unbounded `Int`/`Nat`; a value
corresponding to a real Go value has its payload inside the width's range. -/
inductive Value where
  | vNil
  | vInt (n : Int)
  | vInt8 (n : Int)
  | vInt16 (n : Int)
  | vInt32 (n : Int)
  | vInt64 (n : Int)
  | vUint (n : Nat)
  | vUint8 (n : Nat)
  | vUint16 (n : Nat)
  | vUint32 (n : Nat)
  | vUint64 (n : Nat)
  | vFloat32 (f : F32)
  | vFloat64 (f : F32)
  | vString (s : String)
  | vBool (b : Bool)
  | vBytes (bs : List Nat)
  | vTime (t : GoTime)
deriving DecidableEq

/-- The structured errors the conversion functions return, one constructor
per `fmt.Errorf` site / sentinel of the source. -/
inductive GoErr where
  | errInvalidType
  | overflowInt32 (v : Int)
  | overflowInt64 (v : Nat)
  | cantConvertInt32 (s : String)
  | cantConvertInt64 (s : String)
  | cantConvertTime (s : String)
  | notNil (v : Value)
deriving DecidableEq

deriving instance DecidableEq for Except

/-- Two's-complement truncation to 32 bits: Go `int32(i)` on a wider value. -/
def wrap32 (n : Int) : Int := (n + 2 ^ 31) % 2 ^ 32 - 2 ^ 31

/-- Two's-complement reinterpretation of a 64-bit quantity: Go `int64(u)`
for `u : uint`. -/
def wrap64 (n : Int) : Int := (n + 2 ^ 63) % 2 ^ 64 - 2 ^ 63

/-- Numeric value of a list of decimal digit characters. -/
def digitsToNat (ds : List Char) : Nat :=
  ds.foldl (fun a c => a * 10 + (c.toNat - 48)) 0

/-- Go `strconv.Atoi`: optional sign, then one or more decimal digits,
nothing else; fails if the result is outside the 64-bit `int` range. -/
def atoi (s : String) : Option Int :=
  let p : Int × List Char :=
    match s.data with
    | '+' :: rest => (1, rest)
    | '-' :: rest => (-1, rest)
    | cs => (1, cs)
  match p with
  | (sign, ds) =>
    if ds = [] then none
    else if ds.all Char.isDigit then
      let n : Int := sign * digitsToNat ds
      if n < -(2 ^ 63) ∨ 2 ^ 63 - 1 < n then none else some n
    else none

/-- The three-way comparison `if a < b { -1 } else if a > b { 1 } else { 0 }`
shared by `compareInt32` and `compareInt64`. -/
def intCmp (x y : Int) : Int := if x < y then -1 else if y < x then 1 else 0

/-- UTF-8 encoding of one character. -/
def charUtf8 (c : Char) : List Nat :=
  let n := c.toNat
  if n < 0x80 then [n]
  else if n < 0x800 then [0xC0 + n / 0x40, 0x80 + n % 0x40]
  else if n < 0x10000 then
    [0xE0 + n / 0x1000, 0x80 + n / 0x40 % 0x40, 0x80 + n % 0x40]
  else
    [0xF0 + n / 0x40000, 0x80 + n / 0x1000 % 0x40,
      0x80 + n / 0x40 % 0x40, 0x80 + n % 0x40]

/-- The byte sequence of a Go string (UTF-8). -/
def stringBytes (s : String) : List Nat := s.data.flatMap charUtf8

/-- Bytewise lexicographic three-way comparison: `strings.Compare` and
`bytes.Compare`. -/
def lexCompare : List Nat → List Nat → Int
  | [], [] => 0
  | [], _ :: _ => -1
  | _ :: _, [] => 1
  | a :: as, b :: bs =>
    if a < b then -1 else if b < a then 1 else lexCompare as bs

/-- `checkString`: `_, ok := v.(string)`. -/
def checkString : Value → Bool
  | .vString _ => true
  | _ => false

/-- `checkInt32`: `_, ok := v.(int32)`. -/
def checkInt32 : Value → Bool
  | .vInt32 _ => true
  | _ => false

/-- `checkInt64`: `_, ok := v.(int64)`. -/
def checkInt64 : Value → Bool
  | .vInt64 _ => true
  | _ => false

/-- `checkBoolean`: `_, ok := v.(bool)`. -/
def checkBoolean : Value → Bool
  | .vBool _ => true
  | _ => false

/-- `checkFloat64`: `_, ok := v.(float32)` — the source tests for a 32-bit
float even though the type is documented as 64-bit. -/
def checkFloat64 : Value → Bool
  | .vFloat32 _ => true
  | _ => false

/-- `checkTimestamp`: `_, ok := v.(time.Time)`. -/
def checkTimestamp : Value → Bool
  | .vTime _ => true
  | _ => false

/-- `nullType.Check`: `v == nil`. -/
def checkNull : Value → Bool
  | .vNil => true
  | _ => false

/-- `blobType.Check`: `_, ok := v.([]byte)`. -/
def checkBlob : Value → Bool
  | .vBytes _ => true
  | _ => false

/-- Pieces of Go `time.Time.String()` (layout
`2006-01-02 15:04:05.999999999 -0700 MST`) for a UTC time; declared below
together with the calendar helpers it needs. -/
def padZeros (w : Nat) (n : Nat) : String :=
  String.mk (List.replicate (w - (toString n).length) '0') ++ toString n

/-- Drop trailing `0` characters (Go's trimming of the fractional second). -/
def dropTrailingZeros (s : String) : String :=
  String.mk ((s.data.reverse.dropWhile (fun c => c == '0')).reverse)

/-- Days since 1970-01-01 of a Gregorian calendar date (standard
days-from-civil computation, as performed by `time.Date`). -/
def daysFromCivil (y : Int) (m d : Nat) : Int :=
  let y' : Int := if m ≤ 2 then y - 1 else y
  let era : Int := y'.fdiv 400
  let yoe : Int := y' - era * 400
  let mp : Nat := (m + 9) % 12
  let doy : Int := ((153 * mp + 2) / 5 + d - 1 : Nat)
  let doe : Int := yoe * 365 + yoe.fdiv 4 - yoe.fdiv 100 + doy
  era * 146097 + doe - 719468

/-- Gregorian calendar date of a day count since 1970-01-01 (standard
civil-from-days computation, as performed by `time.Time.Date`). -/
def civilFromDays (z : Int) : Int × Nat × Nat :=
  let z' := z + 719468
  let era := z'.fdiv 146097
  let doe := (z' - era * 146097).toNat
  let yoe := (doe - doe / 1460 + doe / 36524 - doe / 146096) / 365
  let y : Int := yoe + era * 400
  let doy := doe - (365 * yoe + yoe / 4 - yoe / 100)
  let mp := (5 * doy + 2) / 153
  let d := doy - (153 * mp + 2) / 5 + 1
  let m := if mp < 10 then mp + 3 else mp - 9
  (if m ≤ 2 then y + 1 else y, m, d)

/-- Go `t.Format("2006-01-02 15:04:05")` for a UTC `time.Time`. -/
def formatTimestamp (t : GoTime) : String :=
  let days := t.sec.fdiv 86400
  let sod := (t.sec.fmod 86400).toNat
  match civilFromDays days with
  | (y, m, d) =>
    padZeros 4 y.toNat ++ "-" ++ padZeros 2 m ++ "-" ++ padZeros 2 d ++ " " ++
      padZeros 2 (sod / 3600) ++ ":" ++ padZeros 2 (sod % 3600 / 60) ++ ":" ++
      padZeros 2 (sod % 60)

/-- Go `time.Time.String()` for a UTC time: seconds-precision timestamp, the
trimmed fractional second if any, and the `+0000 UTC` zone suffix. -/
def goTimeString (t : GoTime) : String :=
  formatTimestamp t ++
    (if t.nsec = 0 then "" else "." ++ dropTrailingZeros (padZeros 9 t.nsec)) ++
    " +0000 UTC"

/-- Go `isLeap`: `year%4 == 0 && (year%100 != 0 || year%400 == 0)`. -/
def isLeapYear (y : Int) : Bool :=
  decide (y % 4 = 0) && (decide (y % 100 ≠ 0) || decide (y % 400 = 0))

/-- Go `daysIn(m, year)`: the number of days of a month. -/
def daysIn (month : Nat) (year : Int) : Nat :=
  if month = 2 then (if isLeapYear year then 29 else 28)
  else if month = 4 ∨ month = 6 ∨ month = 9 ∨ month = 11 then 30
  else 31

/-- One decimal digit, as Go's `getnum` reads it. -/
def digit (c : Char) : Option Nat :=
  if c.isDigit then some (c.toNat - 48) else none

/-- A fixed two-digit number (`getnum` with `fixed = true`). -/
def getnum2 : List Char → Option (Nat × List Char)
  | c1 :: c2 :: rest => do
    let d1 ← digit c1
    let d2 ← digit c2
    pure (d1 * 10 + d2, rest)
  | _ => none

/-- A one- or two-digit number (`getnum` with `fixed = false`, used by the
non-padded hour field `15`): Go takes two digits when the second character
is also a digit, otherwise one. -/
def getnum1or2 : List Char → Option (Nat × List Char)
  | c1 :: c2 :: rest =>
    if c1.isDigit then
      if c2.isDigit then some ((c1.toNat - 48) * 10 + (c2.toNat - 48), rest)
      else some (c1.toNat - 48, c2 :: rest)
    else none
  | [c1] => if c1.isDigit then some (c1.toNat - 48, []) else none
  | [] => none

/-- The four-digit year field (`stdLongYear`). -/
def getnum4 : List Char → Option (Nat × List Char)
  | c1 :: c2 :: c3 :: c4 :: rest => do
    let d1 ← digit c1
    let d2 ← digit c2
    let d3 ← digit c3
    let d4 ← digit c4
    pure (((d1 * 10 + d2) * 10 + d3) * 10 + d4, rest)
  | _ => none

/-- A six-digit fractional-second field (`.000000`). -/
def getnum6 : List Char → Option (Nat × List Char)
  | c1 :: c2 :: c3 :: c4 :: c5 :: c6 :: rest => do
    let d1 ← digit c1
    let d2 ← digit c2
    let d3 ← digit c3
    let d4 ← digit c4
    let d5 ← digit c5
    let d6 ← digit c6
    pure ((((((d1 * 10 + d2) * 10 + d3) * 10 + d4) * 10 + d5) * 10 + d6), rest)
  | _ => none

/-- A literal layout character. -/
def expectChar (c : Char) : List Char → Option (List Char)
  | x :: rest => if x = c then some rest else none
  | [] => none

/-- Go `time.Parse("2006-01-02 15:04:05.000000", s)`: the fixed layout with a
mandatory six-digit fractional second, the whole input consumed, and Go's
range validation of every field; the zero-padded fields (`01`, `02`, `04`,
`05`) take exactly two digits while the hour field `15` (`stdHour`) is read
with `getnum(value, false)` and takes one or two; the result is a UTC
`time.Time`. -/
def timeParse (s : String) : Option GoTime := do
  let r := s.data
  let (year, r) ← getnum4 r
  let r ← expectChar '-' r
  let (month, r) ← getnum2 r
  let r ← expectChar '-' r
  let (day, r) ← getnum2 r
  let r ← expectChar ' ' r
  let (hour, r) ← getnum1or2 r
  let r ← expectChar ':' r
  let (minute, r) ← getnum2 r
  let r ← expectChar ':' r
  let (second, r) ← getnum2 r
  let r ← expectChar '.' r
  let (frac, r) ← getnum6 r
  if r ≠ [] then none
  else if month < 1 ∨ 12 < month then none
  else if day < 1 ∨ daysIn month year < day then none
  else if 24 ≤ hour then none
  else if 60 ≤ minute then none
  else if 60 ≤ second then none
  else
    some { sec := daysFromCivil year month day * 86400 +
                    (hour * 3600 + minute * 60 + second : Nat),
           nsec := frac * 1000 }

/-- `convertToString`: a `string` passes through; a `fmt.Stringer` (among our
values only `time.Time` implements it) yields its `String()`; anything else
is `ErrInvalidType`. -/
def convertToString : Value → Except GoErr Value
  | .vString s => .ok (.vString s)
  | .vTime t => .ok (.vString (goTimeString t))
  | _ => .error .errInvalidType

/-- `compareString`: `strings.Compare`, bytewise lexicographic.  A panic of
the `a.(string)` assertion on non-canonical input is `none`. -/
def compareString : Value → Value → Option Int
  | .vString a, .vString b => some (lexCompare (stringBytes a) (stringBytes b))
  | _, _ => none

/-- `convertToInt32`: the type switch of the source.  `int` is the 64-bit
platform int and `int32(...)` of it truncates (`wrap32`); only the `int64`,
`uint`, `uint32` and `uint64` branches test for overflow; a string goes
through `strconv.Atoi` and is then truncated. -/
def convertToInt32 : Value → Except GoErr Value
  | .vInt n => .ok (.vInt32 (wrap32 n))
  | .vInt8 n => .ok (.vInt32 n)
  | .vInt16 n => .ok (.vInt32 n)
  | .vInt32 n => .ok (.vInt32 n)
  | .vInt64 n =>
    if 2 ^ 31 - 1 < n ∨ n < -(2 ^ 31) then .error (.overflowInt32 n)
    else .ok (.vInt32 n)
  | .vUint8 n => .ok (.vInt32 n)
  | .vUint16 n => .ok (.vInt32 n)
  | .vUint n =>
    if 2 ^ 31 - 1 < (n : Int) then .error (.overflowInt32 n)
    else .ok (.vInt32 n)
  | .vUint32 n =>
    if 2 ^ 31 - 1 < (n : Int) then .error (.overflowInt32 n)
    else .ok (.vInt32 n)
  | .vUint64 n =>
    if 2 ^ 31 - 1 < (n : Int) then .error (.overflowInt32 n)
    else .ok (.vInt32 n)
  | .vString s =>
    match atoi s with
    | none => .error (.cantConvertInt32 s)
    | some i => .ok (.vInt32 (wrap32 i))
  | _ => .error .errInvalidType

/-- `compareInt32`. -/
def compareInt32 : Value → Value → Option Int
  | .vInt32 a, .vInt32 b => some (intCmp a b)
  | _, _ => none

/-- `convertToInt64`: the type switch of the source.  Only the `uint64`
branch tests for overflow; `int64(u)` of a 64-bit platform `uint` is the
two's-complement reinterpretation (`wrap64`). -/
def convertToInt64 : Value → Except GoErr Value
  | .vInt n => .ok (.vInt64 n)
  | .vInt8 n => .ok (.vInt64 n)
  | .vInt16 n => .ok (.vInt64 n)
  | .vInt32 n => .ok (.vInt64 n)
  | .vInt64 n => .ok (.vInt64 n)
  | .vUint n => .ok (.vInt64 (wrap64 n))
  | .vUint8 n => .ok (.vInt64 n)
  | .vUint16 n => .ok (.vInt64 n)
  | .vUint32 n => .ok (.vInt64 n)
  | .vUint64 n =>
    if 2 ^ 63 ≤ n then .error (.overflowInt64 n) else .ok (.vInt64 n)
  | .vString s =>
    match atoi s with
    | none => .error (.cantConvertInt64 s)
    | some i => .ok (.vInt64 i)
  | _ => .error .errInvalidType

/-- `compareInt64`. -/
def compareInt64 : Value → Value → Option Int
  | .vInt64 a, .vInt64 b => some (intCmp a b)
  | _, _ => none

/-- `convertToBool`. -/
def convertToBool : Value → Except GoErr Value
  | .vBool b => .ok (.vBool b)
  | _ => .error .errInvalidType

/-- The body of `compareBool`: equal values compare 0, otherwise `false` is
smaller. -/
def boolCmp (a b : Bool) : Int := if a = b then 0 else if a = false then -1 else 1

/-- `compareBool`. -/
def compareBool : Value → Value → Option Int
  | .vBool a, .vBool b => some (boolCmp a b)
  | _, _ => none

/-- `convertToFloat64`: despite the name, only a `float32` is accepted and it
is returned unchanged (still a `float32`). -/
def convertToFloat64 : Value → Except GoErr Value
  | .vFloat32 f => .ok (.vFloat32 f)
  | _ => .error .errInvalidType

/-- The body of `compareFloat64`: IEEE `<` / `>` on two `float32` values. -/
def f32Cmp (a b : F32) : Int := if F32.lt a b then -1 else if F32.lt b a then 1 else 0

/-- `compareFloat64`: asserts both arguments to `float32` and compares with
IEEE `<` / `>`. -/
def compareFloat64 : Value → Value → Option Int
  | .vFloat32 a, .vFloat32 b => some (f32Cmp a b)
  | _, _ => none

/-- `nullType.Convert`: nil maps to nil, anything else is an error. -/
def nullConvert : Value → Except GoErr Value
  | .vNil => .ok .vNil
  | v => .error (.notNil v)

/-- `nullType.Compare` ignores both arguments and returns 0. -/
def nullCompare : Value → Value → Option Int
  | _, _ => some 0

/-- `convertToTimestamp`: a `time.Time` passes through; a string is parsed
with the fixed layout; everything else must pass `BigInteger.Check` (i.e. be
an `int64`) and is interpreted as Unix epoch seconds. -/
def convertToTimestamp : Value → Except GoErr Value
  | .vTime t => .ok (.vTime t)
  | .vString s =>
    match timeParse s with
    | none => .error (.cantConvertTime s)
    | some t => .ok (.vTime t)
  | v =>
    if checkInt64 v then
      match convertToInt64 v with
      | .ok (.vInt64 n) => .ok (.vTime (timeUnix n))
      | _ => .error .errInvalidType
    else .error .errInvalidType

/-- The body of `compareTimestamp`: `Before` / `After` on the instants. -/
def timeCmp (a b : GoTime) : Int :=
  if goTimeBefore a b then -1 else if goTimeAfter a b then 1 else 0

/-- `compareTimestamp`. -/
def compareTimestamp : Value → Value → Option Int
  | .vTime a, .vTime b => some (timeCmp a b)
  | _, _ => none

/-- `blobType.Convert`: bytes pass through, a string yields its bytes, a
`fmt.Stringer` (only `time.Time` here) the bytes of its `String()`. -/
def convertToBlob : Value → Except GoErr Value
  | .vBytes bs => .ok (.vBytes bs)
  | .vString s => .ok (.vBytes (stringBytes s))
  | .vTime t => .ok (.vBytes (stringBytes (goTimeString t)))
  | _ => .error .errInvalidType

/-- `blobType.Compare`: `bytes.Compare`. -/
def compareBlob : Value → Value → Option Int
  | .vBytes a, .vBytes b => some (lexCompare a b)
  | _, _ => none

/-- The fixed catalog of built-in types; constructor names follow the
package-level singletons of the source. -/
inductive GoType where
  | null
  | integer
  | bigInteger
  | timestampWithTimezone
  | string
  | boolean
  | float
  | blob
deriving DecidableEq

/-- `Type.Check` dispatch: each descriptor's `Check` method. -/
def typeCheck : GoType → Value → Bool
  | .null, v => checkNull v
  | .integer, v => checkInt32 v
  | .bigInteger, v => checkInt64 v
  | .timestampWithTimezone, v => checkTimestamp v
  | .string, v => checkString v
  | .boolean, v => checkBoolean v
  | .float, v => checkFloat64 v
  | .blob, v => checkBlob v

/-- `Type.Convert` dispatch: each descriptor's `Convert` method. -/
def typeConvert : GoType → Value → Except GoErr Value
  | .null, v => nullConvert v
  | .integer, v => convertToInt32 v
  | .bigInteger, v => convertToInt64 v
  | .timestampWithTimezone, v => convertToTimestamp v
  | .string, v => convertToString v
  | .boolean, v => convertToBool v
  | .float, v => convertToFloat64 v
  | .blob, v => convertToBlob v

/-- `Type.Compare` dispatch: each descriptor's `Compare` method; `none`
marks the panic of a failed type assertion on non-canonical input. -/
def typeCompare : GoType → Value → Value → Option Int
  | .null, a, b => nullCompare a b
  | .integer, a, b => compareInt32 a b
  | .bigInteger, a, b => compareInt64 a b
  | .timestampWithTimezone, a, b => compareTimestamp a b
  | .string, a, b => compareString a b
  | .boolean, a, b => compareBool a b
  | .float, a, b => compareFloat64 a b
  | .blob, a, b => compareBlob a b

/-- `MustConvert`: returns the converted value, `none` marking the panic on
a conversion error. -/
def MustConvert (t : GoType) (v : Value) : Option Value :=
  match typeConvert t v with
  | .ok c => some c
  | .error _ => none

/-- `floatType.SQL`: `sqltypes.NewFloat64(MustConvert(t, v).(float64))`; the
result is the float payload handed to `NewFloat64`, `none` marking a panic
(of `MustConvert` or of the `.(float64)` assertion). -/
def floatSQL (v : Value) : Option F32 :=
  match MustConvert GoType.float v with
  | none => none
  | some (.vFloat64 f) => some f
  | some _ => none

/-- `timestampWithTimeZoneType.SQL`: converts, asserts `time.Time`, and
formats with layout `2006-01-02 15:04:05`; the result is the string whose
bytes are handed to `sqltypes.MakeTrusted`, `none` marking a panic. -/
def timestampSQL (v : Value) : Option String :=
  match MustConvert GoType.timestampWithTimezone v with
  | none => none
  | some (.vTime t) => some (formatTimestamp t)
  | some _ => none

/-- `Column`: name, type, default and nullability (source fields `Name`,
`Type`, `Default`, `Nullable`). -/
structure Column where
  name : String
  typ : GoType
  defaultVal : Value
  nullable : Bool

/-- `Column.Check`: nil is accepted iff the column is nullable; otherwise
the column's type decides. -/
def Column.check (c : Column) (v : Value) : Bool :=
  match v with
  | .vNil => c.nullable
  | _ => typeCheck c.typ v

/-- The Go dynamic type name `reflect.TypeOf(v).String()`; `none` for nil,
where `reflect.TypeOf` returns a nil `reflect.Type`. -/
def typeName : Value → Option String
  | .vNil => none
  | .vInt _ => some "int"
  | .vInt8 _ => some "int8"
  | .vInt16 _ => some "int16"
  | .vInt32 _ => some "int32"
  | .vInt64 _ => some "int64"
  | .vUint _ => some "uint"
  | .vUint8 _ => some "uint8"
  | .vUint16 _ => some "uint16"
  | .vUint32 _ => some "uint32"
  | .vUint64 _ => some "uint64"
  | .vFloat32 _ => some "float32"
  | .vFloat64 _ => some "float64"
  | .vString _ => some "string"
  | .vBool _ => some "bool"
  | .vBytes _ => some "[]uint8"
  | .vTime _ => some "time.Time"

abbrev Schema := List Column

abbrev Row := List Value

/-- Outcome of `Schema.CheckRow`: success, the two structured errors of the
source, or the abort that `reflect.TypeOf(nil).String()` raises (a method
call on a nil interface) when the failing value is nil. -/
inductive RowResult where
  | ok
  | lengthErr (expected got : Nat)
  | typeErr (idx : Nat) (typ : String)
  | nilAbort (idx : Nat)
deriving DecidableEq

/-- The per-position loop of `CheckRow`. -/
def checkRowAux : List Column → List Value → Nat → RowResult
  | c :: cs, v :: vs, idx =>
    if c.check v then checkRowAux cs vs (idx + 1)
    else
      match typeName v with
      | some t => .typeErr idx t
      | none => .nilAbort idx
  | _, _, _ => .ok

/-- `Schema.CheckRow`: the length test, then the per-position checks. -/
def Schema.checkRow (s : Schema) (r : Row) : RowResult :=
  if s.length ≠ r.length then .lengthErr s.length r.length
  else checkRowAux s r 0

/-- `wrap32` is the identity on the `int32` range. -/
theorem wrap32_eq_self {n : Int} (h1 : -(2 ^ 31) ≤ n) (h2 : n ≤ 2 ^ 31 - 1) :
    wrap32 n = n := by
  unfold wrap32
  have hm : (n + 2 ^ 31) % 2 ^ 32 = n + 2 ^ 31 := Int.emod_eq_of_lt (by omega) (by omega)
  omega

/-- `intCmp` is antisymmetric. -/
theorem intCmp_swap (x y : Int) : intCmp y x = -intCmp x y := by
  unfold intCmp
  split_ifs <;> omega

/-- `intCmp` only returns `-1`, 0 or 1. -/
theorem intCmp_range (x y : Int) :
    intCmp x y = -1 ∨ intCmp x y = 0 ∨ intCmp x y = 1 := by
  unfold intCmp
  split_ifs <;> omega

/-- `intCmp` returns `-1` exactly when the first argument is smaller. -/
theorem intCmp_eq_neg_one_iff (x y : Int) : intCmp x y = -1 ↔ x < y := by
  rcases lt_trichotomy x y with h | h | h
  · simp [intCmp, h]
  · subst h
    simp [intCmp, lt_irrefl]
  · simp [intCmp, h, lt_asymm h]

/-- `intCmp` returns 0 exactly on equal arguments. -/
theorem intCmp_eq_zero_iff (x y : Int) : intCmp x y = 0 ↔ x = y := by
  rcases lt_trichotomy x y with h | h | h
  · simp [intCmp, h]
    omega
  · subst h
    simp [intCmp, lt_irrefl]
  · simp [intCmp, h, lt_asymm h]
    omega

/-- `intCmp` returns 1 exactly when the second argument is smaller. -/
theorem intCmp_eq_one_iff (x y : Int) : intCmp x y = 1 ↔ y < x := by
  rcases lt_trichotomy x y with h | h | h
  · simp [intCmp, h]
    omega
  · subst h
    simp [intCmp, lt_irrefl]
  · simp [intCmp, h, lt_asymm h]

/-- `lexCompare` is antisymmetric. -/
theorem lexCompare_swap : ∀ l₁ l₂ : List Nat, lexCompare l₂ l₁ = -lexCompare l₁ l₂
  | [], [] => by simp [lexCompare]
  | [], _ :: _ => by simp [lexCompare]
  | _ :: _, [] => by simp [lexCompare]
  | a :: as, b :: bs => by
    simp only [lexCompare]
    rcases Nat.lt_trichotomy a b with h | h | h
    · simp [h, Nat.lt_asymm h]
    · subst h
      simp [Nat.lt_irrefl, lexCompare_swap as bs]
    · simp [h, Nat.lt_asymm h]

/-- `lexCompare` only returns `-1`, 0 or 1. -/
theorem lexCompare_range : ∀ l₁ l₂ : List Nat,
    lexCompare l₁ l₂ = -1 ∨ lexCompare l₁ l₂ = 0 ∨ lexCompare l₁ l₂ = 1
  | [], [] => by simp [lexCompare]
  | [], _ :: _ => by simp [lexCompare]
  | _ :: _, [] => by simp [lexCompare]
  | a :: as, b :: bs => by
    simp only [lexCompare]
    rcases Nat.lt_trichotomy a b with h | h | h
    · simp [h]
    · subst h
      simp [Nat.lt_irrefl, lexCompare_range as bs]
    · simp [h, Nat.lt_asymm h]

/-- `lexCompare` returns 0 exactly on equal byte sequences. -/
theorem lexCompare_eq_zero_iff : ∀ l₁ l₂ : List Nat, lexCompare l₁ l₂ = 0 ↔ l₁ = l₂
  | [], [] => by simp [lexCompare]
  | [], _ :: _ => by simp [lexCompare]
  | _ :: _, [] => by simp [lexCompare]
  | a :: as, b :: bs => by
    simp only [lexCompare]
    rcases Nat.lt_trichotomy a b with h | h | h
    · simp [h]
      omega
    · subst h
      simp [Nat.lt_irrefl, lexCompare_eq_zero_iff as bs]
    · simp [h, Nat.lt_asymm h]
      omega

/-- `lexCompare` returns `-1` exactly on lexicographically smaller byte
sequences. -/
theorem lexCompare_eq_neg_one_iff : ∀ l₁ l₂ : List Nat,
    lexCompare l₁ l₂ = -1 ↔ List.Lex (fun x y : Nat => x < y) l₁ l₂
  | [], [] => by
    simp only [lexCompare]
    constructor
    · intro h
      exact absurd h (by omega)
    · intro h
      cases h
  | [], b :: bs => by
    simp only [lexCompare]
    constructor
    · intro _
      exact List.Lex.nil
    · intro _
      trivial
  | a :: as, [] => by
    simp only [lexCompare]
    constructor
    · intro h
      exact absurd h (by omega)
    · intro h
      cases h
  | a :: as, b :: bs => by
    simp only [lexCompare]
    rcases Nat.lt_trichotomy a b with h | h | h
    · simp only [if_pos h]
      constructor
      · intro _
        exact List.Lex.rel h
      · intro _
        trivial
    · subst h
      simp only [if_neg (Nat.lt_irrefl a)]
      constructor
      · intro hh
        exact List.Lex.cons ((lexCompare_eq_neg_one_iff as bs).mp hh)
      · intro hh
        cases hh with
        | cons hh => exact (lexCompare_eq_neg_one_iff as bs).mpr hh
        | rel hh => exact absurd hh (Nat.lt_irrefl a)
    · simp only [if_neg (Nat.lt_asymm h), if_pos h]
      constructor
      · intro hh
        exact absurd hh (by omega)
      · intro hh
        cases hh with
        | cons hh => exact absurd h (Nat.lt_irrefl a)
        | rel hh => exact absurd hh (Nat.lt_asymm h)

/-- `f32Cmp` is antisymmetric (also in the NaN cases, which compare 0 both
ways). -/
theorem f32Cmp_swap (a b : F32) : f32Cmp b a = -f32Cmp a b := by
  cases a <;> cases b <;>
    first
      | (simp [f32Cmp, F32.lt]; done)
      | (rename_i p q
         rcases lt_trichotomy p q with h | h | h
         · simp [f32Cmp, F32.lt, h, lt_asymm h]
         · subst h
           simp [f32Cmp, F32.lt, lt_irrefl]
         · simp [f32Cmp, F32.lt, h, lt_asymm h])

/-- `f32Cmp` only returns `-1`, 0 or 1. -/
theorem f32Cmp_range (a b : F32) : f32Cmp a b = -1 ∨ f32Cmp a b = 0 ∨ f32Cmp a b = 1 := by
  cases a <;> cases b <;>
    first
      | (simp [f32Cmp, F32.lt]; done)
      | (rename_i p q
         rcases lt_trichotomy p q with h | h | h
         · simp [f32Cmp, F32.lt, h, lt_asymm h]
         · subst h
           simp [f32Cmp, F32.lt, lt_irrefl]
         · simp [f32Cmp, F32.lt, h, lt_asymm h])

/-- On finite floats the sign of `f32Cmp` characterises the numeric order. -/
theorem f32Cmp_fin_sign (p q : ℚ) :
    (f32Cmp (.fin p) (.fin q) = -1 ↔ p < q) ∧ (f32Cmp (.fin p) (.fin q) = 0 ↔ p = q) ∧
      (f32Cmp (.fin p) (.fin q) = 1 ↔ q < p) := by
  rcases lt_trichotomy p q with h | h | h
  · simp [f32Cmp, F32.lt, h, lt_asymm h, ne_of_lt h]
  · subst h
    simp [f32Cmp, F32.lt, lt_irrefl]
  · simp [f32Cmp, F32.lt, h, lt_asymm h, (ne_of_lt h).symm]

/-- Decoding of `Before`: earlier second, or same second and earlier
nanosecond. -/
theorem goTimeBefore_iff (a b : GoTime) :
    goTimeBefore a b = true ↔ (a.sec < b.sec ∨ (a.sec = b.sec ∧ a.nsec < b.nsec)) := by
  simp [goTimeBefore]

/-- Decoding of `After`. -/
theorem goTimeAfter_iff (a b : GoTime) :
    goTimeAfter a b = true ↔ (b.sec < a.sec ∨ (a.sec = b.sec ∧ b.nsec < a.nsec)) := by
  simp [goTimeAfter]

/-- `timeCmp` is antisymmetric. -/
theorem timeCmp_swap (a b : GoTime) : timeCmp b a = -timeCmp a b := by
  unfold timeCmp
  rcases Classical.em (a.sec < b.sec ∨ (a.sec = b.sec ∧ a.nsec < b.nsec)) with h | h
  · rw [if_neg (fun hb => by have := (goTimeBefore_iff b a).mp hb; omega),
        if_pos ((goTimeAfter_iff b a).mpr (by omega)),
        if_pos ((goTimeBefore_iff a b).mpr h)]
    norm_num
  · rcases Classical.em (b.sec < a.sec ∨ (b.sec = a.sec ∧ b.nsec < a.nsec)) with h2 | h2
    · rw [if_pos ((goTimeBefore_iff b a).mpr h2),
          if_neg (fun hb => by have := (goTimeBefore_iff a b).mp hb; omega),
          if_pos ((goTimeAfter_iff a b).mpr (by omega))]
    · rw [if_neg (fun hb => by have := (goTimeBefore_iff b a).mp hb; omega),
          if_neg (fun hb => by have := (goTimeAfter_iff b a).mp hb; omega),
          if_neg (fun hb => by have := (goTimeBefore_iff a b).mp hb; omega),
          if_neg (fun hb => by have := (goTimeAfter_iff a b).mp hb; omega)]
      norm_num

/-- The sign of `timeCmp` characterises the chronological order. -/
theorem timeCmp_sign (a b : GoTime) :
    (timeCmp a b = -1 ↔ (a.sec < b.sec ∨ (a.sec = b.sec ∧ a.nsec < b.nsec))) ∧
      (timeCmp a b = 0 ↔ (a.sec = b.sec ∧ a.nsec = b.nsec)) ∧
      (timeCmp a b = 1 ↔ (b.sec < a.sec ∨ (a.sec = b.sec ∧ b.nsec < a.nsec))) := by
  unfold timeCmp
  rcases Classical.em (a.sec < b.sec ∨ (a.sec = b.sec ∧ a.nsec < b.nsec)) with h | h
  · rw [if_pos ((goTimeBefore_iff a b).mpr h)]
    refine ⟨by simp [h], ?_, ?_⟩
    · constructor
      · intro hh
        exact absurd hh (by norm_num)
      · intro hh
        omega
    · constructor
      · intro hh
        exact absurd hh (by norm_num)
      · intro hh
        omega
  · rw [if_neg (fun hb => h ((goTimeBefore_iff a b).mp hb))]
    rcases Classical.em (b.sec < a.sec ∨ (a.sec = b.sec ∧ b.nsec < a.nsec)) with h2 | h2
    · rw [if_pos ((goTimeAfter_iff a b).mpr h2)]
      refine ⟨?_, ?_, by simp [h2]⟩
      · constructor
        · intro hh
          exact absurd hh (by norm_num)
        · intro hh
          exact absurd hh h
      · constructor
        · intro hh
          exact absurd hh (by norm_num)
        · intro hh
          omega
    · rw [if_neg (fun hb => h2 ((goTimeAfter_iff a b).mp hb))]
      refine ⟨?_, ?_, ?_⟩
      · constructor
        · intro hh
          exact absurd hh (by norm_num)
        · intro hh
          exact absurd hh h
      · constructor
        · intro hh
          omega
        · intro hh
          rfl
      · constructor
        · intro hh
          exact absurd hh (by norm_num)
        · intro hh
          exact absurd hh h2

/-- `boolCmp` is antisymmetric. -/
theorem boolCmp_swap : ∀ a b : Bool, boolCmp b a = -boolCmp a b := by decide

/-- The sign of `boolCmp` characterises the order false < true. -/
theorem boolCmp_sign : ∀ a b : Bool,
    (boolCmp a b = -1 ↔ a = false ∧ b = true) ∧ (boolCmp a b = 0 ↔ a = b) ∧
      (boolCmp a b = 1 ↔ a = true ∧ b = false) := by decide

/-- `timeCmp` only returns `-1`, 0 or 1. -/
theorem timeCmp_range (a b : GoTime) :
    timeCmp a b = -1 ∨ timeCmp a b = 0 ∨ timeCmp a b = 1 := by
  unfold timeCmp
  split_ifs <;> omega

/-- `boolCmp` only returns `-1`, 0 or 1. -/
theorem boolCmp_range : ∀ a b : Bool,
    boolCmp a b = -1 ∨ boolCmp a b = 0 ∨ boolCmp a b = 1 := by decide

/-- C10: `Null.Compare` returns 0 (equal) for every pair of arguments
whatsoever, not only for the nil-vs-nil pair: the comparison ignores both
inputs entirely. -/
theorem c10_null_compare_always_zero (a b : Value) :
    typeCompare GoType.null a b = some 0 := rfl

/-- C9: for every input value, including the supported 32-bit float canonical
form, `Float.SQL` aborts by panic: `Convert` produces a 32-bit float while
`SQL` asserts the converted result to a 64-bit float, and `Convert` rejects
64-bit float input, so no input reaches a successful serialization. -/
theorem c9_float_sql_always_panics (v : Value) : floatSQL v = none := by
  cases v <;> rfl

/-- C3: for every built-in type `T` and value `v` with `T.Check(v)` true,
`T.Convert(v)` succeeds and returns `v` unchanged (conversion is idempotent
on canonical values). -/
theorem c3_convert_idempotent (T : GoType) (v : Value)
    (h : typeCheck T v = true) : typeConvert T v = Except.ok v := by
  cases T <;> cases v <;> simp_all [typeCheck, typeConvert, checkNull, checkInt32,
    checkInt64, checkTimestamp, checkString, checkBoolean, checkFloat64, checkBlob,
    nullConvert, convertToInt32, convertToInt64, convertToTimestamp, convertToString,
    convertToBool, convertToFloat64, convertToBlob]

/-- Witness for C3 at the Integer type and the canonical value `int32(5)`. -/
theorem c3_convert_idempotent_witness :
    typeCheck GoType.integer (Value.vInt32 5) = true ∧
      typeConvert GoType.integer (Value.vInt32 5) = Except.ok (Value.vInt32 5) :=
  ⟨rfl, c3_convert_idempotent GoType.integer (Value.vInt32 5) rfl⟩

/-- C7: converting the text `2023-01-02 15:04:05.000000` to
TimestampWithTimezone succeeds, and serializing the resulting canonical value
via `SQL` yields exactly the ASCII bytes `2023-01-02 15:04:05` (seconds
precision, no fractional part, no timezone suffix); every character of that
string is ASCII, so the string equals its byte sequence. -/
theorem c7_timestamp_round_trip :
    convertToTimestamp (Value.vString "2023-01-02 15:04:05.000000") =
        Except.ok (Value.vTime { sec := 1672671845, nsec := 0 }) ∧
      timestampSQL (Value.vTime { sec := 1672671845, nsec := 0 }) =
        some "2023-01-02 15:04:05" ∧
      ("2023-01-02 15:04:05").data.all (fun c => decide (c.toNat < 128)) = true :=
  ⟨by decide, by decide, by decide⟩

/-- C2: evaluation of `Schema.CheckRow` at the failing input.  The claim says
every `Convert`/`Check`/`CheckRow` path returns normally; but when a row
holds nil at a non-nullable position, `CheckRow` reaches
`reflect.TypeOf(v).String()` with `v = nil`, a method call on a nil
interface, and aborts instead of returning the structured error. -/
theorem c2_checkrow_nil_aborts :
    Schema.checkRow
        [⟨"b", GoType.boolean, Value.vNil, false⟩,
          ⟨"i", GoType.integer, Value.vNil, false⟩]
        [Value.vBool true, Value.vNil] = RowResult.nilAbort 1 := by decide

/-- C8: evaluation of `Schema.CheckRow`: the length mismatch reports expected
and actual counts; a non-nil failing value yields an error with its position
and dynamic kind; a nullable column accepts nil; but a nil value at a
non-nullable position aborts in `reflect.TypeOf(nil).String()` instead of
producing the positional error the claim describes. -/
theorem c8_checkrow_behaviour :
    Schema.checkRow
        [⟨"a", GoType.integer, Value.vNil, false⟩,
          ⟨"b", GoType.string, Value.vNil, false⟩,
          ⟨"c", GoType.boolean, Value.vNil, false⟩]
        [Value.vInt32 1, Value.vString "x"] = RowResult.lengthErr 3 2 ∧
      Schema.checkRow [⟨"a", GoType.integer, Value.vNil, false⟩]
        [Value.vString "x"] = RowResult.typeErr 0 "string" ∧
      Schema.checkRow [⟨"a", GoType.integer, Value.vNil, true⟩]
        [Value.vNil] = RowResult.ok ∧
      Schema.checkRow [⟨"a", GoType.string, Value.vNil, false⟩]
        [Value.vNil] = RowResult.nilAbort 0 :=
  ⟨by decide, by decide, by decide, by decide⟩

/-- C4 (amended): among unsigned inputs to `BigInteger.Convert`, only
`uint64` values are checked: a `uint64` at least `2^63` fails with an
overflow error (in particular `9223372036854775808`), and below `2^63`
succeeds with the value; a 64-bit platform `uint` is reinterpreted
two's-complement (`int64(u)`) without any check, so `uint` values at least
`2^63` wrap to negative and succeed; `uint8`/`uint16`/`uint32` cannot reach
`2^63`. -/
theorem c4_int64_overflow :
    (∀ n : Nat, 2 ^ 63 ≤ n →
        convertToInt64 (Value.vUint64 n) = Except.error (GoErr.overflowInt64 n)) ∧
      (∀ n : Nat, n < 2 ^ 63 →
        convertToInt64 (Value.vUint64 n) = Except.ok (Value.vInt64 n)) ∧
      (∀ n : Nat, convertToInt64 (Value.vUint n) =
        Except.ok (Value.vInt64 (wrap64 n))) ∧
      convertToInt64 (Value.vUint64 9223372036854775808) =
        Except.error (GoErr.overflowInt64 9223372036854775808) := by
  refine ⟨?_, ?_, fun n => rfl, by decide⟩
  · intro n h
    simp only [convertToInt64]
    rw [if_pos (by omega)]
  · intro n h
    simp only [convertToInt64]
    rw [if_neg (by omega)]

/-- Witness for C4 at the boundary: `uint64(2^63)` overflows and
`uint64(2^63 - 1)` converts to itself. -/
theorem c4_int64_overflow_witness :
    convertToInt64 (Value.vUint64 (2 ^ 63)) =
        Except.error (GoErr.overflowInt64 (2 ^ 63)) ∧
      convertToInt64 (Value.vUint64 (2 ^ 63 - 1)) =
        Except.ok (Value.vInt64 (2 ^ 63 - 1)) :=
  ⟨c4_int64_overflow.1 (2 ^ 63) (by decide),
    c4_int64_overflow.2.1 (2 ^ 63 - 1) (by decide)⟩

/-- Counterexample to C4 as stated: the unsigned platform-`uint` value
`9223372036854775808 = 2^63` does not fail — `int64(u)` wraps it to
`-9223372036854775808` and conversion succeeds. -/
theorem c4_counterexample :
    convertToInt64 (Value.vUint 9223372036854775808) =
        Except.ok (Value.vInt64 (-9223372036854775808)) ∧
      2 ^ 63 ≤ (9223372036854775808 : Nat) :=
  ⟨by decide, by decide⟩

/-- C1 (amended): `Integer.Convert` detects overflow outside
`[-2^31, 2^31-1]` only for `int64`, `uint`, `uint32` and `uint64` inputs,
failing with an overflow error there (in particular for the 64-bit value
`2147483648`); every in-range value of every integer width and every
in-range decimal text converts successfully to the same 32-bit value (in
particular `42` at any width); but a 64-bit platform `int` input and decimal
text are truncated two's-complement to 32 bits without a range test, so
out-of-range values of those two kinds succeed with a wrapped value instead
of failing; decimal text beyond the 64-bit `int` range fails with a
conversion (not overflow) error. -/
theorem c1_int32_conversion :
    (∀ n : Int, 2 ^ 31 - 1 < n ∨ n < -(2 ^ 31) →
        convertToInt32 (Value.vInt64 n) = Except.error (GoErr.overflowInt32 n)) ∧
      (∀ n : Nat, 2 ^ 31 - 1 < (n : Int) →
        convertToInt32 (Value.vUint n) = Except.error (GoErr.overflowInt32 n) ∧
          convertToInt32 (Value.vUint32 n) = Except.error (GoErr.overflowInt32 n) ∧
          convertToInt32 (Value.vUint64 n) = Except.error (GoErr.overflowInt32 n)) ∧
      (∀ n : Int, -(2 ^ 31) ≤ n → n ≤ 2 ^ 31 - 1 →
        convertToInt32 (Value.vInt n) = Except.ok (Value.vInt32 n) ∧
          convertToInt32 (Value.vInt64 n) = Except.ok (Value.vInt32 n)) ∧
      (∀ n : Int, convertToInt32 (Value.vInt8 n) = Except.ok (Value.vInt32 n) ∧
        convertToInt32 (Value.vInt16 n) = Except.ok (Value.vInt32 n) ∧
        convertToInt32 (Value.vInt32 n) = Except.ok (Value.vInt32 n)) ∧
      (∀ n : Nat, convertToInt32 (Value.vUint8 n) = Except.ok (Value.vInt32 n) ∧
        convertToInt32 (Value.vUint16 n) = Except.ok (Value.vInt32 n)) ∧
      (∀ n : Nat, (n : Int) ≤ 2 ^ 31 - 1 →
        convertToInt32 (Value.vUint n) = Except.ok (Value.vInt32 n) ∧
          convertToInt32 (Value.vUint32 n) = Except.ok (Value.vInt32 n) ∧
          convertToInt32 (Value.vUint64 n) = Except.ok (Value.vInt32 n)) ∧
      (∀ s i, atoi s = some i →
        convertToInt32 (Value.vString s) = Except.ok (Value.vInt32 (wrap32 i))) ∧
      (∀ s, atoi s = none →
        convertToInt32 (Value.vString s) = Except.error (GoErr.cantConvertInt32 s)) ∧
      (∀ n : Int, convertToInt32 (Value.vInt n) = Except.ok (Value.vInt32 (wrap32 n))) ∧
      convertToInt32 (Value.vInt64 2147483648) =
        Except.error (GoErr.overflowInt32 2147483648) ∧
      convertToInt32 (Value.vInt64 42) = Except.ok (Value.vInt32 42) ∧
      convertToInt32 (Value.vInt 42) = Except.ok (Value.vInt32 42) ∧
      convertToInt32 (Value.vInt8 42) = Except.ok (Value.vInt32 42) ∧
      convertToInt32 (Value.vInt16 42) = Except.ok (Value.vInt32 42) ∧
      convertToInt32 (Value.vInt32 42) = Except.ok (Value.vInt32 42) ∧
      convertToInt32 (Value.vUint 42) = Except.ok (Value.vInt32 42) ∧
      convertToInt32 (Value.vUint8 42) = Except.ok (Value.vInt32 42) ∧
      convertToInt32 (Value.vUint16 42) = Except.ok (Value.vInt32 42) ∧
      convertToInt32 (Value.vUint32 42) = Except.ok (Value.vInt32 42) ∧
      convertToInt32 (Value.vUint64 42) = Except.ok (Value.vInt32 42) ∧
      convertToInt32 (Value.vString "42") = Except.ok (Value.vInt32 42) := by
  refine ⟨?_, ?_, ?_, fun n => ⟨rfl, rfl, rfl⟩, fun n => ⟨rfl, rfl⟩, ?_, ?_, ?_,
    fun n => rfl, by decide, by decide, by decide, by decide, by decide, by decide,
    by decide, by decide, by decide, by decide, by decide, by decide⟩
  · intro n h
    simp only [convertToInt32]
    rw [if_pos h]
  · intro n h
    simp only [convertToInt32]
    exact ⟨by rw [if_pos h], by rw [if_pos h], by rw [if_pos h]⟩
  · intro n h1 h2
    simp only [convertToInt32]
    rw [if_neg (by omega), wrap32_eq_self h1 h2]
    exact ⟨rfl, rfl⟩
  · intro n h
    simp only [convertToInt32]
    exact ⟨by rw [if_neg (by omega)], by rw [if_neg (by omega)], by rw [if_neg (by omega)]⟩
  · intro s i h
    simp [convertToInt32, h]
  · intro s h
    simp [convertToInt32, h]

/-- Witness for C1: the out-of-range `int64` value `2^31` overflows, and the
in-range value `7` converts at the `int`, `int64` and `uint` widths. -/
theorem c1_int32_conversion_witness :
    convertToInt32 (Value.vInt64 (2 ^ 31)) =
        Except.error (GoErr.overflowInt32 (2 ^ 31)) ∧
      convertToInt32 (Value.vInt 7) = Except.ok (Value.vInt32 7) ∧
      convertToInt32 (Value.vInt64 7) = Except.ok (Value.vInt32 7) ∧
      convertToInt32 (Value.vUint 7) = Except.ok (Value.vInt32 7) :=
  ⟨c1_int32_conversion.1 (2 ^ 31) (by norm_num),
    (c1_int32_conversion.2.2.1 7 (by norm_num) (by norm_num)).1,
    (c1_int32_conversion.2.2.1 7 (by norm_num) (by norm_num)).2,
    (c1_int32_conversion.2.2.2.2.2.1 7 (by norm_num)).1⟩

/-- Counterexample to C1 as stated: the platform-`int` value `2147483648`
lies outside `[-2^31, 2^31-1]`, yet `Integer.Convert` does not fail with an
overflow error — it succeeds, silently truncating to `-2147483648`. -/
theorem c1_counterexample :
    convertToInt32 (Value.vInt 2147483648) =
        Except.ok (Value.vInt32 (-2147483648)) ∧
      (2 ^ 31 - 1 : Int) < 2147483648 :=
  ⟨by decide, by decide⟩

theorem c6_compare_total_order :
    (∀ (T : GoType) (a b : Value), typeCheck T a = true → typeCheck T b = true →
        ∃ r : Int, typeCompare T a b = some r ∧ typeCompare T b a = some (-r) ∧
          (r = -1 ∨ r = 0 ∨ r = 1)) ∧
      (∀ x y : Int,
        typeCompare GoType.integer (Value.vInt32 x) (Value.vInt32 y) =
            some (intCmp x y) ∧
          typeCompare GoType.bigInteger (Value.vInt64 x) (Value.vInt64 y) =
            some (intCmp x y) ∧
          (intCmp x y = -1 ↔ x < y) ∧ (intCmp x y = 0 ↔ x = y) ∧
          (intCmp x y = 1 ↔ y < x)) ∧
      (∀ s₁ s₂ : String,
        typeCompare GoType.string (Value.vString s₁) (Value.vString s₂) =
          some (lexCompare (stringBytes s₁) (stringBytes s₂))) ∧
      (∀ b₁ b₂ : List Nat,
        typeCompare GoType.blob (Value.vBytes b₁) (Value.vBytes b₂) =
          some (lexCompare b₁ b₂)) ∧
      (∀ l₁ l₂ : List Nat,
        (lexCompare l₁ l₂ = -1 ↔ List.Lex (fun x y : Nat => x < y) l₁ l₂) ∧
          (lexCompare l₁ l₂ = 0 ↔ l₁ = l₂) ∧
          (lexCompare l₁ l₂ = 1 ↔ List.Lex (fun x y : Nat => x < y) l₂ l₁)) ∧
      (∀ p q : ℚ,
        typeCompare GoType.float (Value.vFloat32 (F32.fin p))
            (Value.vFloat32 (F32.fin q)) = some (f32Cmp (F32.fin p) (F32.fin q)) ∧
          (f32Cmp (F32.fin p) (F32.fin q) = -1 ↔ p < q) ∧
          (f32Cmp (F32.fin p) (F32.fin q) = 0 ↔ p = q) ∧
          (f32Cmp (F32.fin p) (F32.fin q) = 1 ↔ q < p)) ∧
      (∀ t u : GoTime,
        typeCompare GoType.timestampWithTimezone (Value.vTime t) (Value.vTime u) =
            some (timeCmp t u) ∧
          (timeCmp t u = -1 ↔ (t.sec < u.sec ∨ (t.sec = u.sec ∧ t.nsec < u.nsec))) ∧
          (timeCmp t u = 0 ↔ (t.sec = u.sec ∧ t.nsec = u.nsec)) ∧
          (timeCmp t u = 1 ↔ (u.sec < t.sec ∨ (t.sec = u.sec ∧ u.nsec < t.nsec)))) ∧
      (∀ a b : Bool,
        typeCompare GoType.boolean (Value.vBool a) (Value.vBool b) =
            some (boolCmp a b) ∧
          (boolCmp a b = -1 ↔ a = false ∧ b = true) ∧ (boolCmp a b = 0 ↔ a = b) ∧
          (boolCmp a b = 1 ↔ a = true ∧ b = false)) := by
  refine ⟨?_, ?_, fun s₁ s₂ => rfl, fun b₁ b₂ => rfl, ?_, ?_, ?_, ?_⟩
  · intro T a b ha hb
    cases T
    · exact ⟨0, rfl, by simp [typeCompare, nullCompare], by simp⟩
    · cases a <;> simp [typeCheck, checkInt32] at ha
      cases b <;> simp [typeCheck, checkInt32] at hb
      rename_i x y
      exact ⟨intCmp x y, rfl, congrArg some (intCmp_swap x y), intCmp_range x y⟩
    · cases a <;> simp [typeCheck, checkInt64] at ha
      cases b <;> simp [typeCheck, checkInt64] at hb
      rename_i x y
      exact ⟨intCmp x y, rfl, congrArg some (intCmp_swap x y), intCmp_range x y⟩
    · cases a <;> simp [typeCheck, checkTimestamp] at ha
      cases b <;> simp [typeCheck, checkTimestamp] at hb
      rename_i t u
      exact ⟨timeCmp t u, rfl, congrArg some (timeCmp_swap t u), timeCmp_range t u⟩
    · cases a <;> simp [typeCheck, checkString] at ha
      cases b <;> simp [typeCheck, checkString] at hb
      rename_i s₁ s₂
      exact ⟨lexCompare (stringBytes s₁) (stringBytes s₂), rfl,
        congrArg some (lexCompare_swap (stringBytes s₁) (stringBytes s₂)),
        lexCompare_range (stringBytes s₁) (stringBytes s₂)⟩
    · cases a <;> simp [typeCheck, checkBoolean] at ha
      cases b <;> simp [typeCheck, checkBoolean] at hb
      rename_i x y
      exact ⟨boolCmp x y, rfl, congrArg some (boolCmp_swap x y), boolCmp_range x y⟩
    · cases a <;> simp [typeCheck, checkFloat64] at ha
      cases b <;> simp [typeCheck, checkFloat64] at hb
      rename_i f g
      exact ⟨f32Cmp f g, rfl, congrArg some (f32Cmp_swap f g), f32Cmp_range f g⟩
    · cases a <;> simp [typeCheck, checkBlob] at ha
      cases b <;> simp [typeCheck, checkBlob] at hb
      rename_i b₁ b₂
      exact ⟨lexCompare b₁ b₂, rfl, congrArg some (lexCompare_swap b₁ b₂),
        lexCompare_range b₁ b₂⟩
  · intro x y
    exact ⟨rfl, rfl, intCmp_eq_neg_one_iff x y, intCmp_eq_zero_iff x y,
      intCmp_eq_one_iff x y⟩
  · intro l₁ l₂
    refine ⟨lexCompare_eq_neg_one_iff l₁ l₂, lexCompare_eq_zero_iff l₁ l₂, ?_⟩
    constructor
    · intro h
      apply (lexCompare_eq_neg_one_iff l₂ l₁).mp
      rw [lexCompare_swap l₁ l₂]
      omega
    · intro h
      have hh := (lexCompare_eq_neg_one_iff l₂ l₁).mpr h
      rw [lexCompare_swap l₁ l₂] at hh
      omega
  · intro p q
    exact ⟨rfl, f32Cmp_fin_sign p q⟩
  · intro t u
    exact ⟨rfl, timeCmp_sign t u⟩
  · intro a b
    exact ⟨rfl, boolCmp_sign a b⟩

/-- Witness for C6 at the Integer type and the canonical pair `(0, 1)`. -/
theorem c6_compare_total_order_witness :
    ∃ r : Int,
      typeCompare GoType.integer (Value.vInt32 0) (Value.vInt32 1) = some r ∧
        typeCompare GoType.integer (Value.vInt32 1) (Value.vInt32 0) = some (-r) ∧
        (r = -1 ∨ r = 0 ∨ r = 1) :=
  c6_compare_total_order.1 GoType.integer (Value.vInt32 0) (Value.vInt32 1) rfl rfl
